import Mathlib

/-!
Shallow embedding of the async-bacnet crate (src/io.rs, src/discover.rs,
src/client.rs, src/error.rs) and proofs about it.

Modelling conventions:
- durations are natural numbers in seconds (Rust `Duration::from_secs(n)` becomes `n`);
- a socket address is a pair of numbers (host, port);
- fallible Rust operations become `Except`-valued functions; external effects
  (socket binding, socket options, datagram arrival) are passed in as explicit
  outcome parameters, so every function is a pure function of the code path it takes;
- `tokio::time::timeout(w, fut)` is modelled by `awaitWithTimeout w arrival`,
  where `arrival = some (delay, v)` means the awaited future yields `v` after
  `delay` time units and `none` means it never yields.
-/

namespace AsyncBacnet

/-- A network endpoint: IP address and port, modelling `std::net::SocketAddr`. -/
structure Addr where
  ip : Nat
  port : Nat
deriving DecidableEq, Repr

/-- Kind of a `std::io::Error`; the code distinguishes `ErrorKind::TimedOut`
from every other kind. -/
inductive IoErrorKind where
  | timedOut
  | other (code : Nat)
deriving DecidableEq, Repr

/-- Model of `std::io::Error`: a kind plus a message. -/
structure IoError where
  kind : IoErrorKind
  msg : String
deriving DecidableEq, Repr

/-- One inbound UDP datagram: payload bytes plus the sender address, as
returned by `UdpSocket::recv_from`. -/
structure Datagram where
  bytes : List Nat
  source : Addr
deriving DecidableEq, Repr

/-- Model of `tokio::time::timeout (w, fut)`: the future completes with its
value iff it yields within `w` time units, otherwise the timeout elapses
(`none`). -/
def awaitWithTimeout {α : Type} (w : Nat) (arrival : Option (Nat × α)) : Option α :=
  match arrival with
  | none => none
  | some (delay, a) => if delay ≤ w then some a else none

/-- Model of the `TokioUdpIo` transport handle of src/io.rs: the configured
peer, the local bind port (0 stands for the ephemeral bind `0.0.0.0:0`), the
socket options set during construction, and the mutable timeout duration. -/
structure TokioUdpIo where
  peer : Addr
  localPort : Nat
  reuseAddress : Bool
  reusePort : Bool
  broadcast : Bool
  timeout : Nat
deriving DecidableEq, Repr

/-- Embedding of `TokioUdpIo::new` (src/io.rs lines 24-31): bind an ephemeral
local socket (outcome passed in as `bindResult`), then construct the handle
with a 5 second timeout. -/
def TokioUdpIo.new (peer : Addr) (bindResult : Except IoError Unit) :
    Except IoError TokioUdpIo :=
  match bindResult with
  | Except.error e => Except.error e
  | Except.ok _ => Except.ok ⟨peer, 0, false, false, false, 5⟩

/-- Outcomes of the fallible steps inside `TokioUdpIo::new_broadcast`
(src/io.rs lines 33-58), in program order: `Socket::new`,
`set_nonblocking(true)`, `set_reuse_address(true)`, `set_reuse_port(true)`
(the non-Windows build), `bind(0.0.0.0:peer.port)`, `UdpSocket::from_std`,
`set_broadcast(true)`. -/
structure BroadcastSteps where
  socketNew : Except IoError Unit
  setNonblocking : Except IoError Unit
  setReuseAddress : Except IoError Unit
  setReusePort : Except IoError Unit
  bindStep : Except IoError Unit
  fromStd : Except IoError Unit
  setBroadcast : Except IoError Unit
deriving Repr

/-- First failing step of `new_broadcast`, if any, in program order. -/
def BroadcastSteps.firstFailure (s : BroadcastSteps) : Option IoError :=
  match s.socketNew with
  | Except.error e => some e
  | Except.ok _ =>
  match s.setNonblocking with
  | Except.error e => some e
  | Except.ok _ =>
  match s.setReuseAddress with
  | Except.error e => some e
  | Except.ok _ =>
  match s.setReusePort with
  | Except.error e => some e
  | Except.ok _ =>
  match s.bindStep with
  | Except.error e => some e
  | Except.ok _ =>
  match s.fromStd with
  | Except.error e => some e
  | Except.ok _ =>
  match s.setBroadcast with
  | Except.error e => some e
  | Except.ok _ => none

/-- Embedding of `TokioUdpIo::new_broadcast` (src/io.rs lines 33-58): each
fallible step is tried in program order and its error propagated with `?`;
on success the handle is bound to the port of the peer with address reuse, port
reuse and the broadcast option enabled, and a 5 second timeout. -/
def TokioUdpIo.new_broadcast (peer : Addr) (s : BroadcastSteps) :
    Except IoError TokioUdpIo :=
  match s.socketNew with
  | Except.error e => Except.error e
  | Except.ok _ =>
  match s.setNonblocking with
  | Except.error e => Except.error e
  | Except.ok _ =>
  match s.setReuseAddress with
  | Except.error e => Except.error e
  | Except.ok _ =>
  match s.setReusePort with
  | Except.error e => Except.error e
  | Except.ok _ =>
  match s.bindStep with
  | Except.error e => Except.error e
  | Except.ok _ =>
  match s.fromStd with
  | Except.error e => Except.error e
  | Except.ok _ =>
  match s.setBroadcast with
  | Except.error e => Except.error e
  | Except.ok _ => Except.ok ⟨peer, peer.port, true, true, true, 5⟩

/-- Embedding of `TokioUdpIo::set_timeout` (src/io.rs lines 68-70). -/
def TokioUdpIo.set_timeout (t : TokioUdpIo) (duration : Nat) : TokioUdpIo :=
  ⟨t.peer, t.localPort, t.reuseAddress, t.reusePort, t.broadcast, duration⟩

/-- Embedding of `NetworkIo::read` for `TokioUdpIo` (src/io.rs lines 75-87):
await `recv_from` under the configured timeout. `recv` is the inbound event:
`some (delay, Except.ok d)` means datagram `d` arrives after `delay`,
`some (delay, Except.error e)` a socket failure after `delay`, `none` that
nothing happens. On a datagram the payload is copied into the front of `buf`
(truncated to the buffer length, as `recv_from` does) and only the byte count
is returned — the sender address is dropped, matching `Ok(Ok((n, _peer))) =>
Ok(n)`. The result is the updated buffer paired with the return value. -/
def TokioUdpIo.read (t : TokioUdpIo) (buf : List Nat)
    (recv : Option (Nat × Except IoError Datagram)) :
    List Nat × Except IoError Nat :=
  match awaitWithTimeout t.timeout recv with
  | some (Except.ok d) =>
      (d.bytes.take (min d.bytes.length buf.length) ++
         buf.drop (min d.bytes.length buf.length),
       Except.ok (min d.bytes.length buf.length))
  | some (Except.error e) => (buf, Except.error e)
  | none => (buf, Except.error ⟨IoErrorKind.timedOut, "read timed out"⟩)

/-- Embedding of `NetworkIo::write` for `TokioUdpIo` (src/io.rs lines 89-98):
await `send_to` under the configured timeout; `send` is the outcome of the
underlying send (byte count or socket error, after some delay). -/
def TokioUdpIo.write (t : TokioUdpIo)
    (send : Option (Nat × Except IoError Nat)) : Except IoError Nat :=
  match awaitWithTimeout t.timeout send with
  | some (Except.ok n) => Except.ok n
  | some (Except.error e) => Except.error e
  | none => Except.error ⟨IoErrorKind.timedOut, "write timed out"⟩

/-- Model of the decode errors of `embedded_bacnet`, as wrapped by
`BacnetError` (treated as an abstract code: the codec is an external
collaborator). -/
structure DecodeError where
  code : Nat
deriving DecidableEq, Repr

/-- Model of `embedded_bacnet::simple::BacnetError<TokioUdpIo>` as used here:
the discovery loop only ever builds it from a codec decode error. -/
inductive BacnetError where
  | codec (e : DecodeError)
deriving DecidableEq, Repr

/-- Embedding of the crate error type `Error` of src/error.rs, with its two
variants `Error::Io` and `Error::Bacnet`. -/
inductive Error where
  | io (e : IoError)
  | bacnet (e : BacnetError)
deriving DecidableEq, Repr

/-- Model of the `embedded_bacnet` type `ObjectId` restricted to the field the
discovery loop reads (`device_id.id`). -/
structure ObjectId where
  id : Nat
deriving DecidableEq, Repr

/-- Model of the decoded `IAm` service payload: device object id and vendor id. -/
structure IAm where
  device_id : ObjectId
  vendor_id : Nat
deriving DecidableEq, Repr

/-- Model of `UnconfirmedRequest`: the discovery loop only distinguishes the
`IAm` variant from everything else. -/
inductive UnconfirmedRequest where
  | whoIs
  | iAm (i : IAm)
  | otherService (code : Nat)
deriving DecidableEq, Repr

/-- Model of `ApplicationPdu`. -/
inductive ApplicationPdu where
  | unconfirmedRequest (r : UnconfirmedRequest)
  | otherPdu (code : Nat)
deriving DecidableEq, Repr

/-- Model of `NetworkMessage`. -/
inductive NetworkMessage where
  | apdu (a : ApplicationPdu)
  | otherMessage (code : Nat)
deriving DecidableEq, Repr

/-- Model of `NetworkPdu` restricted to the field the loop reads. -/
structure NetworkPdu where
  network_message : NetworkMessage
deriving DecidableEq, Repr

/-- Model of a decoded `DataLink` frame: an optional network PDU. -/
structure DataLink where
  npdu : Option NetworkPdu
deriving DecidableEq, Repr

/-- Embedding of the I-Am extraction in src/discover.rs lines 100-108:
`message.npdu.and_then(...)` pattern-matching for
`NetworkMessage::Apdu(ApplicationPdu::UnconfirmedRequest(UnconfirmedRequest::IAm(iam)))`. -/
def extractIAm (m : DataLink) : Option IAm :=
  m.npdu.bind fun npdu =>
    match npdu.network_message with
    | NetworkMessage.apdu (ApplicationPdu.unconfirmedRequest (UnconfirmedRequest.iAm i)) =>
        some i
    | _ => none

/-- Embedding of the `Device` record of src/discover.rs lines 25-33. -/
structure Device where
  id : Nat
  vendor_id : Nat
  addr : Addr
deriving DecidableEq, Repr

/-- Outcome of one `timeout(who_is_duration, socket.recv_from(&mut buf))`
iteration in the discovery loop: the inactivity timeout fired, the socket
receive failed, or a datagram arrived. -/
inductive RecvOutcome where
  | timedOut
  | recvErr (e : IoError)
  | datagram (d : Datagram)
deriving Repr

/-- The environment of one iteration in the discovery loop: the receive outcome,
plus whether the consumer still holds the receiving end of the mpsc channel
at the moment this iteration would send (a send succeeds iff it does). -/
structure LoopEvent where
  outcome : RecvOutcome
  receiverOpen : Bool
deriving Repr

/-- How a (finite) run of the discovery loop ended: the inactivity timeout
fired (`break` after `timeout` elapses), a device send failed because the
receiver was dropped (`break` on `send(Ok(device))` error), or the supplied
event trace ran out with the loop still running. -/
inductive ExitKind where
  | inactivityTimeout
  | receiverDropped
  | eventsExhausted
deriving DecidableEq, Repr

/-- Observable result of running the discovery collection loop over a finite
event trace: the items actually delivered on the channel in order, how the
loop ended, and how many receive attempts it made. -/
structure LoopRun where
  sent : List (Except Error Device)
  exit : ExitKind
  consumed : Nat
deriving Repr

/-- Embedding of the spawned collection loop of src/discover.rs lines 68-122,
parameterised by the codec function `DataLink::decode` (`dec`) and driven by a finite
trace of per-iteration events. Branches, in source order:
- timeout elapsed: log and `break`;
- receive error: send `Err(err.into())` on the channel discarding the send
  result (`let _ = ...`), `continue`;
- decode error: send `Err(Error::Bacnet(err.into()))` discarding the send
  result, `continue`;
- decoded frame with no I-Am: `continue` without sending;
- decoded I-Am: build the `Device` from `iam.device_id.id`, `iam.vendor_id`
  and the sender address, send `Ok(device)`, and `break` iff that send fails
  (receiver dropped).
A send delivers its item iff `receiverOpen` is true for that iteration. -/
def collectLoop (dec : List Nat → Except DecodeError DataLink) :
    List LoopEvent → LoopRun
  | [] => ⟨[], ExitKind.eventsExhausted, 0⟩
  | e :: rest =>
    match e.outcome with
    | RecvOutcome.timedOut => ⟨[], ExitKind.inactivityTimeout, 1⟩
    | RecvOutcome.recvErr err =>
        ⟨(if e.receiverOpen then [Except.error (Error.io err)] else []) ++
           (collectLoop dec rest).sent,
         (collectLoop dec rest).exit, (collectLoop dec rest).consumed + 1⟩
    | RecvOutcome.datagram d =>
        match dec d.bytes with
        | Except.error derr =>
            ⟨(if e.receiverOpen then
                [Except.error (Error.bacnet (BacnetError.codec derr))] else []) ++
               (collectLoop dec rest).sent,
             (collectLoop dec rest).exit, (collectLoop dec rest).consumed + 1⟩
        | Except.ok msg =>
            match extractIAm msg with
            | none =>
                ⟨(collectLoop dec rest).sent, (collectLoop dec rest).exit,
                 (collectLoop dec rest).consumed + 1⟩
            | some iam =>
                if e.receiverOpen then
                  ⟨Except.ok ⟨iam.device_id.id, iam.vendor_id, d.source⟩ ::
                     (collectLoop dec rest).sent,
                   (collectLoop dec rest).exit, (collectLoop dec rest).consumed + 1⟩
                else
                  ⟨[], ExitKind.receiverDropped, 1⟩

/-- Embedding of `duration.unwrap_or(Duration::from_secs(120))`
(src/discover.rs line 64): the inactivity window used by every loop
iteration. -/
def whoIsDuration (duration : Option Nat) : Nat :=
  duration.getD 120

/-- Timing model of the receive pattern of the collecting loop: each iteration
arms a fresh `timeout(w, recv_from)`, so an arrival is received iff it comes
within `w` of the previous receipt (`t` is the time the current iteration
started waiting). Returns the arrival times actually received before the
inactivity timeout first fires. -/
def slidingReceives (w : Nat) : Nat → List Nat → List Nat
  | _, [] => []
  | t, a :: rest => if a ≤ t + w then a :: slidingReceives w a rest else []

/-- Fixed send timeout for the WHO-IS probe (src/discover.rs line 57). -/
def SEND_TIMEOUT : Nat := 5

/-- Capacity of the discovery result channel (src/discover.rs line 65). -/
def CHANNEL_CAPACITY : Nat := 1000

/-- Model of `std::io::Error::from(Elapsed)`: the tokio elapsed error converts
to an I/O error of kind `TimedOut`. -/
def elapsedIoError : IoError :=
  ⟨IoErrorKind.timedOut, "deadline has elapsed"⟩

/-- Observable outcome of a `discover` call: the synchronous result (error,
or the run the returned channel exposes), and whether the result channel was
created and the background task spawned. -/
structure DiscoverOutcome where
  result : Except Error LoopRun
  channelCreated : Bool
  taskSpawned : Bool
deriving Repr

/-- Embedding of `discover` (src/discover.rs lines 38-125): construct the
broadcast transport, send the WHO-IS probe under the fixed 5 second send
timeout (`probe` is the underlying `send_to` outcome), propagating any
failure with `?` before the channel exists; then create the channel, spawn
the collection loop, and hand the receiver back. -/
def discover (addr : Addr) (steps : BroadcastSteps)
    (probe : Option (Nat × Except IoError Nat))
    (dec : List Nat → Except DecodeError DataLink)
    (events : List LoopEvent) : DiscoverOutcome :=
  match TokioUdpIo.new_broadcast addr steps with
  | Except.error e => ⟨Except.error (Error.io e), false, false⟩
  | Except.ok _ =>
    match awaitWithTimeout SEND_TIMEOUT probe with
    | none => ⟨Except.error (Error.io elapsedIoError), false, false⟩
    | some (Except.error e) => ⟨Except.error (Error.io e), false, false⟩
    | some (Except.ok _) => ⟨Except.ok (collectLoop dec events), true, true⟩

/-- Buffer size of the transaction client (src/client.rs line 16). -/
def BUF_SIZE : Nat := 1500

/-- Model of `embedded_bacnet::simple::Bacnet<TokioUdpIo>`: an external
wrapper owning the transport. -/
structure Bacnet where
  io : TokioUdpIo
deriving DecidableEq, Repr

/-- Model of `Bacnet::new`. -/
def Bacnet.new (t : TokioUdpIo) : Bacnet := ⟨t⟩

/-- Embedding of the `Client` struct of src/client.rs lines 23-26. -/
structure Client where
  inner : Bacnet
  buf : List Nat
deriving DecidableEq, Repr

/-- Embedding of `Client::new` (src/client.rs lines 30-36): build a unicast
transport with `TokioUdpIo::new(peer)` (its bind outcome passed in),
propagate its error through `From<std::io::Error> for Error`, and allocate
the `vec![0u8; BUF_SIZE]` buffer. -/
def Client.new (peer : Addr) (bindResult : Except IoError Unit) :
    Except Error Client :=
  match TokioUdpIo.new peer bindResult with
  | Except.error e => Except.error (Error.io e)
  | Except.ok t => Except.ok ⟨Bacnet.new t, List.replicate BUF_SIZE 0⟩

/-! Helper lemmas shared by the claim theorems. -/

/-- A successful `TokioUdpIo::new` yields exactly the ephemeral unicast
handle with a 5 second timeout. -/
theorem new_ok_shape {peer : Addr} {b : Except IoError Unit} {t : TokioUdpIo}
    (h : TokioUdpIo.new peer b = Except.ok t) :
    t = ⟨peer, 0, false, false, false, 5⟩ := by
  cases b with
  | error e => simp [TokioUdpIo.new] at h
  | ok u => simp [TokioUdpIo.new] at h; exact h.symm

/-- `new_broadcast` returns the error of its first failing step, or the
broadcast-configured handle when every step succeeds. -/
theorem new_broadcast_eq_firstFailure (peer : Addr) (s : BroadcastSteps) :
    TokioUdpIo.new_broadcast peer s =
      (match s.firstFailure with
       | some e => Except.error e
       | none => Except.ok ⟨peer, peer.port, true, true, true, 5⟩) := by
  obtain ⟨s1, s2, s3, s4, s5, s6, s7⟩ := s
  cases s1 <;> cases s2 <;> cases s3 <;> cases s4 <;> cases s5 <;> cases s6 <;>
    cases s7 <;> rfl

/-- A successful `TokioUdpIo::new_broadcast` yields exactly the
broadcast-configured handle. -/
theorem new_broadcast_ok_shape {peer : Addr} {s : BroadcastSteps}
    {t : TokioUdpIo} (h : TokioUdpIo.new_broadcast peer s = Except.ok t) :
    t = ⟨peer, peer.port, true, true, true, 5⟩ := by
  rw [new_broadcast_eq_firstFailure] at h
  cases hf : s.firstFailure with
  | none => rw [hf] at h; simpa using h.symm
  | some e => rw [hf] at h; simp at h

/-! Claim theorems. -/

/-- Claim C5: for every Transport read or write call, an operation that does
not complete within the configured timeout fails with an error of the
distinguished Timeout kind (whether nothing ever happens, or the underlying
event comes only after the window); a lower-level socket failure within the
window is returned as that I/O error; and read and write fail in the same
way in each case. -/
theorem transport_error_kinds (t : TokioUdpIo) (buf : List Nat) (e : IoError) :
    (TokioUdpIo.read t buf none).2 =
        Except.error ⟨IoErrorKind.timedOut, "read timed out"⟩ ∧
    TokioUdpIo.write t none =
        Except.error ⟨IoErrorKind.timedOut, "write timed out"⟩ ∧
    (∀ delay r, t.timeout < delay →
        (TokioUdpIo.read t buf (some (delay, r))).2 =
          Except.error ⟨IoErrorKind.timedOut, "read timed out"⟩) ∧
    (∀ delay r, t.timeout < delay →
        TokioUdpIo.write t (some (delay, r)) =
          Except.error ⟨IoErrorKind.timedOut, "write timed out"⟩) ∧
    (∀ delay, delay ≤ t.timeout →
        (TokioUdpIo.read t buf (some (delay, Except.error e))).2 =
          Except.error e) ∧
    (∀ delay, delay ≤ t.timeout →
        TokioUdpIo.write t (some (delay, Except.error e)) = Except.error e) := by
  refine ⟨rfl, rfl, ?_, ?_, ?_, ?_⟩
  · intro delay r h
    simp [TokioUdpIo.read, awaitWithTimeout, Nat.not_le.mpr h]
  · intro delay r h
    simp [TokioUdpIo.write, awaitWithTimeout, Nat.not_le.mpr h]
  · intro delay h
    simp [TokioUdpIo.read, awaitWithTimeout, h]
  · intro delay h
    simp [TokioUdpIo.write, awaitWithTimeout, h]

/-- Witness for C5 at a concrete transport: a read whose datagram arrives
after 6 time units against a 5 second timeout fails with the Timeout kind,
and a socket failure arriving in time is propagated. -/
theorem transport_error_kinds_witness :
    (TokioUdpIo.read ⟨⟨1, 2⟩, 0, false, false, false, 5⟩ []
        (some (6, Except.ok ⟨[1], ⟨0, 0⟩⟩))).2 =
      Except.error ⟨IoErrorKind.timedOut, "read timed out"⟩ ∧
    TokioUdpIo.write ⟨⟨1, 2⟩, 0, false, false, false, 5⟩
        (some (3, Except.error ⟨IoErrorKind.other 101, "host unreachable"⟩)) =
      Except.error ⟨IoErrorKind.other 101, "host unreachable"⟩ :=
  ⟨(transport_error_kinds ⟨⟨1, 2⟩, 0, false, false, false, 5⟩ []
      ⟨IoErrorKind.other 101, "host unreachable"⟩).2.2.1 6
      (Except.ok ⟨[1], ⟨0, 0⟩⟩) (by decide),
   (transport_error_kinds ⟨⟨1, 2⟩, 0, false, false, false, 5⟩ []
      ⟨IoErrorKind.other 101, "host unreachable"⟩).2.2.2.2.2 3 (by decide)⟩

/-- Claim C10: every freshly constructed transport, unicast (`new`) or
broadcast (`new_broadcast`), starts with a timeout of 5 seconds, before any
`set_timeout` call. -/
theorem transport_initial_timeout (peer : Addr) (b : Except IoError Unit)
    (s : BroadcastSteps) :
    (∀ t, TokioUdpIo.new peer b = Except.ok t → t.timeout = 5) ∧
    (∀ t, TokioUdpIo.new_broadcast peer s = Except.ok t → t.timeout = 5) := by
  constructor
  · intro t h
    rw [new_ok_shape h]
  · intro t h
    rw [new_broadcast_ok_shape h]

/-- Witness for C10: concrete unicast and broadcast constructions both come
out with timeout 5. -/
theorem transport_initial_timeout_witness :
    (TokioUdpIo.mk ⟨10, 47808⟩ 0 false false false 5).timeout = 5 ∧
    (TokioUdpIo.mk ⟨10, 47808⟩ 47808 true true true 5).timeout = 5 :=
  ⟨(transport_initial_timeout ⟨10, 47808⟩ (Except.ok ())
      ⟨Except.ok (), Except.ok (), Except.ok (), Except.ok (), Except.ok (),
       Except.ok (), Except.ok ()⟩).1
      ⟨⟨10, 47808⟩, 0, false, false, false, 5⟩ rfl,
   (transport_initial_timeout ⟨10, 47808⟩ (Except.ok ())
      ⟨Except.ok (), Except.ok (), Except.ok (), Except.ok (), Except.ok (),
       Except.ok (), Except.ok ()⟩).2
      ⟨⟨10, 47808⟩, 47808, true, true, true, 5⟩ rfl⟩

/-- Claim C8: `new_broadcast` binds the local socket to the same port as the
given peer address and enables address reuse, port reuse and the broadcast
socket option; if any socket option or bind step fails, it fails with the
I/O error of that step. -/
theorem new_broadcast_contract (peer : Addr) (s : BroadcastSteps) :
    (∀ t, TokioUdpIo.new_broadcast peer s = Except.ok t →
        t.localPort = peer.port ∧ t.reuseAddress = true ∧
          t.reusePort = true ∧ t.broadcast = true) ∧
    (∀ e, s.firstFailure = some e →
        TokioUdpIo.new_broadcast peer s = Except.error e) ∧
    (s.firstFailure = none →
        TokioUdpIo.new_broadcast peer s =
          Except.ok ⟨peer, peer.port, true, true, true, 5⟩) := by
  refine ⟨?_, ?_, ?_⟩
  · intro t h
    rw [new_broadcast_ok_shape h]
    exact ⟨rfl, rfl, rfl, rfl⟩
  · intro e he
    rw [new_broadcast_eq_firstFailure, he]
  · intro h0
    rw [new_broadcast_eq_firstFailure, h0]

/-- Witness for C8: with every step succeeding, the concrete broadcast
transport for peer 10.0.0.255:47808 is bound to port 47808 with reuse and
broadcast enabled; with a failing bind step, that error is returned. -/
theorem new_broadcast_contract_witness :
    TokioUdpIo.new_broadcast ⟨167772415, 47808⟩
        ⟨Except.ok (), Except.ok (), Except.ok (), Except.ok (), Except.ok (),
         Except.ok (), Except.ok ()⟩ =
      Except.ok ⟨⟨167772415, 47808⟩, 47808, true, true, true, 5⟩ ∧
    TokioUdpIo.new_broadcast ⟨167772415, 47808⟩
        ⟨Except.ok (), Except.ok (), Except.ok (), Except.ok (),
         Except.error ⟨IoErrorKind.other 98, "address in use"⟩, Except.ok (),
         Except.ok ()⟩ =
      Except.error ⟨IoErrorKind.other 98, "address in use"⟩ :=
  ⟨(new_broadcast_contract ⟨167772415, 47808⟩
      ⟨Except.ok (), Except.ok (), Except.ok (), Except.ok (), Except.ok (),
       Except.ok (), Except.ok ()⟩).2.2 rfl,
   (new_broadcast_contract ⟨167772415, 47808⟩
      ⟨Except.ok (), Except.ok (), Except.ok (), Except.ok (),
       Except.error ⟨IoErrorKind.other 98, "address in use"⟩, Except.ok (),
       Except.ok ()⟩).2.1 ⟨IoErrorKind.other 98, "address in use"⟩ rfl⟩

/-- Claim C9: `Client::new(peer)` constructs a unicast transport to `peer`
and allocates the decode buffer with fixed capacity 1500 bytes; if transport
construction fails with `e`, `Client::new` fails with exactly that error
(wrapped in the I/O variant of the crate error type). -/
theorem client_new_contract (peer : Addr) (e : IoError) :
    (∀ c, Client.new peer (Except.ok ()) = Except.ok c →
        c.buf.length = 1500 ∧ c.inner.io.peer = peer ∧
          c.inner.io.broadcast = false) ∧
    Client.new peer (Except.error e) = Except.error (Error.io e) := by
  constructor
  · intro c h
    have hc : c = ⟨Bacnet.new ⟨peer, 0, false, false, false, 5⟩,
        List.replicate BUF_SIZE 0⟩ := by
      simp [Client.new, TokioUdpIo.new] at h
      exact h.symm
    subst hc
    exact ⟨List.length_replicate BUF_SIZE 0, rfl, rfl⟩
  · rfl

/-- Witness for C9: the concrete client built for peer 10.0.0.1:47808 has a
1500-byte buffer and a unicast transport to that peer. -/
theorem client_new_contract_witness :
    (Client.mk (Bacnet.new ⟨⟨167772161, 47808⟩, 0, false, false, false, 5⟩)
        (List.replicate BUF_SIZE 0)).buf.length = 1500 :=
  ((client_new_contract ⟨167772161, 47808⟩
      ⟨IoErrorKind.other 13, "permission denied"⟩).1
    ⟨Bacnet.new ⟨⟨167772161, 47808⟩, 0, false, false, false, 5⟩,
     List.replicate BUF_SIZE 0⟩ rfl).1

/-- A broadcast-configured transport handle used in concrete evaluations:
peer 192.168.1.255:47808, bound to port 47808, reuse and broadcast on. -/
def bt0 : TokioUdpIo := ⟨⟨3232236031, 47808⟩, 47808, true, true, true, 5⟩

/-- A datagram from sender 10.0.0.1:47808. -/
def dgA : Datagram := ⟨[1, 2, 3], ⟨167772161, 47808⟩⟩

/-- The same payload as `dgA` but from sender 10.0.0.2:47808. -/
def dgB : Datagram := ⟨[1, 2, 3], ⟨167772162, 47808⟩⟩

/-- Claim C2, counterexample: on a broadcast-mode transport, two reads whose
datagrams come from different senders return identical results, so Transport
read does not return the sender address even in broadcast mode (the code
drops it: `Ok(Ok((n, _peer))) => Ok(n)`). -/
theorem transport_read_discards_sender_cex :
    bt0.broadcast = true ∧
    dgA.source ≠ dgB.source ∧
    TokioUdpIo.read bt0 [0, 0, 0, 0] (some (0, Except.ok dgA)) =
      TokioUdpIo.read bt0 [0, 0, 0, 0] (some (0, Except.ok dgB)) :=
  ⟨rfl, by decide, rfl⟩

/-- Claim C2 (amended): for every Transport read, if one inbound datagram
arrives within the configured timeout, the datagram is copied into the front
of the buffer and the call returns the byte count; the sender address is
discarded in every mode. -/
theorem transport_read_within_timeout (t : TokioUdpIo) (buf : List Nat)
    (d : Datagram) (delay : Nat) (hd : delay ≤ t.timeout)
    (hlen : d.bytes.length ≤ buf.length) :
    TokioUdpIo.read t buf (some (delay, Except.ok d)) =
      (d.bytes ++ buf.drop d.bytes.length, Except.ok d.bytes.length) := by
  simp [TokioUdpIo.read, awaitWithTimeout, hd, Nat.min_eq_left hlen]

/-- Witness for C2 (amended): a concrete 3-byte datagram arriving at once is
copied over the front of a 4-byte buffer and the read returns count 3. -/
theorem transport_read_within_timeout_witness :
    TokioUdpIo.read bt0 [0, 0, 0, 0] (some (0, Except.ok dgA)) =
      ([1, 2, 3, 0], Except.ok 3) :=
  (transport_read_within_timeout bt0 [0, 0, 0, 0] dgA 0 (by decide)
      (by decide)).trans rfl

/-- The all-steps-succeed outcome record for `new_broadcast`. -/
def stepsOk : BroadcastSteps :=
  ⟨Except.ok (), Except.ok (), Except.ok (), Except.ok (), Except.ok (),
   Except.ok (), Except.ok ()⟩

/-- A decode function under which every payload decodes to a frame with no
network PDU. -/
def decNone : List Nat → Except DecodeError DataLink := fun _ => Except.ok ⟨none⟩

/-- Claim C4: when the broadcast transport was constructed successfully but
sending the WHO-IS probe fails — with a socket error inside the 5 second
send window, with the window elapsing, or with the send never completing —
`discover` returns that error synchronously, no result channel is created
and no background task is spawned; the elapsed case surfaces as an I/O error
of the Timeout kind. -/
theorem discover_probe_send_failure (addr : Addr) (s : BroadcastSteps)
    (dec : List Nat → Except DecodeError DataLink) (events : List LoopEvent)
    (e : IoError) (t : TokioUdpIo)
    (hb : TokioUdpIo.new_broadcast addr s = Except.ok t) :
    (∀ delay, delay ≤ SEND_TIMEOUT →
        discover addr s (some (delay, Except.error e)) dec events =
          ⟨Except.error (Error.io e), false, false⟩) ∧
    (∀ delay r, SEND_TIMEOUT < delay →
        discover addr s (some (delay, r)) dec events =
          ⟨Except.error (Error.io elapsedIoError), false, false⟩) ∧
    discover addr s none dec events =
      ⟨Except.error (Error.io elapsedIoError), false, false⟩ ∧
    elapsedIoError.kind = IoErrorKind.timedOut := by
  refine ⟨?_, ?_, ?_, rfl⟩
  · intro delay h
    simp [discover, hb, awaitWithTimeout, h]
  · intro delay r h
    simp [discover, hb, awaitWithTimeout, Nat.not_le.mpr h]
  · simp [discover, hb, awaitWithTimeout]

/-- Witness for C4: a concrete probe send failing at once with a socket
error makes `discover` return that error with no channel and no task. -/
theorem discover_probe_send_failure_witness :
    discover ⟨3232236031, 47808⟩ stepsOk
        (some (0, Except.error ⟨IoErrorKind.other 101, "network unreachable"⟩))
        decNone [] =
      ⟨Except.error (Error.io ⟨IoErrorKind.other 101, "network unreachable"⟩),
       false, false⟩ :=
  (discover_probe_send_failure ⟨3232236031, 47808⟩ stepsOk decNone []
      ⟨IoErrorKind.other 101, "network unreachable"⟩
      ⟨⟨3232236031, 47808⟩, 47808, true, true, true, 5⟩ rfl).1 0 (by decide)

/-! Step lemmas for the collection loop. -/

/-- An elapsed inactivity timeout ends the loop at once: nothing further is
sent, whatever events would have followed. -/
theorem collectLoop_timeout (dec : List Nat → Except DecodeError DataLink)
    (b : Bool) (rest : List LoopEvent) :
    collectLoop dec (⟨RecvOutcome.timedOut, b⟩ :: rest) =
      ⟨[], ExitKind.inactivityTimeout, 1⟩ := rfl

/-- A receive error forwards `Err` (delivered iff the receiver is open) and
the loop continues with the remaining events. -/
theorem collectLoop_recvErr (dec : List Nat → Except DecodeError DataLink)
    (err : IoError) (b : Bool) (rest : List LoopEvent) :
    collectLoop dec (⟨RecvOutcome.recvErr err, b⟩ :: rest) =
      ⟨(if b then [Except.error (Error.io err)] else []) ++
         (collectLoop dec rest).sent,
       (collectLoop dec rest).exit, (collectLoop dec rest).consumed + 1⟩ := rfl

/-- A datagram whose bytes fail to decode forwards the codec error and the
loop continues. -/
theorem collectLoop_decodeErr (dec : List Nat → Except DecodeError DataLink)
    (d : Datagram) (b : Bool) (rest : List LoopEvent) (derr : DecodeError)
    (h : dec d.bytes = Except.error derr) :
    collectLoop dec (⟨RecvOutcome.datagram d, b⟩ :: rest) =
      ⟨(if b then [Except.error (Error.bacnet (BacnetError.codec derr))]
        else []) ++ (collectLoop dec rest).sent,
       (collectLoop dec rest).exit, (collectLoop dec rest).consumed + 1⟩ := by
  simp [collectLoop, h]

/-- A datagram that decodes to a frame carrying no I-Am is dropped without
any send and the loop continues. -/
theorem collectLoop_noIAm (dec : List Nat → Except DecodeError DataLink)
    (d : Datagram) (b : Bool) (rest : List LoopEvent) (msg : DataLink)
    (h : dec d.bytes = Except.ok msg) (hi : extractIAm msg = none) :
    collectLoop dec (⟨RecvOutcome.datagram d, b⟩ :: rest) =
      ⟨(collectLoop dec rest).sent, (collectLoop dec rest).exit,
       (collectLoop dec rest).consumed + 1⟩ := by
  simp [collectLoop, h, hi]

/-- A datagram decoding to an I-Am, with the receiver still open, delivers
the assembled device record and the loop continues. -/
theorem collectLoop_iAm_open (dec : List Nat → Except DecodeError DataLink)
    (d : Datagram) (rest : List LoopEvent) (msg : DataLink) (iam : IAm)
    (h : dec d.bytes = Except.ok msg) (hi : extractIAm msg = some iam) :
    collectLoop dec (⟨RecvOutcome.datagram d, true⟩ :: rest) =
      ⟨Except.ok ⟨iam.device_id.id, iam.vendor_id, d.source⟩ ::
         (collectLoop dec rest).sent,
       (collectLoop dec rest).exit, (collectLoop dec rest).consumed + 1⟩ := by
  simp [collectLoop, h, hi]

/-- A datagram decoding to an I-Am, with the receiver dropped, makes the
device send fail and the loop breaks at once. -/
theorem collectLoop_iAm_closed (dec : List Nat → Except DecodeError DataLink)
    (d : Datagram) (rest : List LoopEvent) (msg : DataLink) (iam : IAm)
    (h : dec d.bytes = Except.ok msg) (hi : extractIAm msg = some iam) :
    collectLoop dec (⟨RecvOutcome.datagram d, false⟩ :: rest) =
      ⟨[], ExitKind.receiverDropped, 1⟩ := by
  simp [collectLoop, h, hi]

/-- Decides whether the receiver side of the result channel is closed
throughout a trace (the consumer has dropped it before the trace starts). -/
def allReceiverClosed (events : List LoopEvent) : Bool :=
  events.all fun e => !e.receiverOpen

/-- A trace in which the consumer has already dropped the receiver and the
next two receive attempts yield socket errors before the window elapses. -/
def droppedTrace : List LoopEvent :=
  [⟨RecvOutcome.recvErr ⟨IoErrorKind.other 104, "connection reset"⟩, false⟩,
   ⟨RecvOutcome.recvErr ⟨IoErrorKind.other 104, "connection reset"⟩, false⟩,
   ⟨RecvOutcome.timedOut, false⟩]

/-- Claim C1, counterexample: with the receiver dropped before any of the
trace, the loop makes three further receive attempts — the first two each
attempt an error send on the closed channel and ignore its failure
(`let _ = sender.send(Err(..))`) — and ends only when the inactivity
timeout fires. So a failed send carrying an error does not terminate the
task, contradicting termination within one receive attempt detected on the
next attempted send whether it carries a device or an error. -/
theorem discovery_drop_detection_cex :
    allReceiverClosed droppedTrace = true ∧
    (collectLoop decNone droppedTrace).consumed = 3 ∧
    (collectLoop decNone droppedTrace).exit = ExitKind.inactivityTimeout :=
  ⟨rfl, rfl, rfl⟩

/-- Claim C1 (amended): once the consumer has dropped the receiving end, no
further items are delivered on the channel; the background task terminates
at the next attempted send of a discovered device (a failed error send is
ignored and collection continues until a device send fails or the
inactivity timeout fires). -/
theorem discovery_receiver_drop (dec : List Nat → Except DecodeError DataLink)
    (events : List LoopEvent)
    (h : ∀ e ∈ events, e.receiverOpen = false) :
    (collectLoop dec events).sent = [] ∧
    (∀ d msg iam rest, dec d.bytes = Except.ok msg →
        extractIAm msg = some iam →
        collectLoop dec (⟨RecvOutcome.datagram d, false⟩ :: rest) =
          ⟨[], ExitKind.receiverDropped, 1⟩) := by
  constructor
  · induction events with
    | nil => rfl
    | cons e rest ih =>
      have he : e.receiverOpen = false := h e (List.mem_cons_self e rest)
      have hrest := ih fun x hx => h x (List.mem_cons_of_mem e hx)
      obtain ⟨o, ro⟩ := e
      simp only at he
      subst he
      cases o with
      | timedOut => rfl
      | recvErr err => simp [collectLoop_recvErr, hrest]
      | datagram d =>
        cases hd : dec d.bytes with
        | error derr => simp [collectLoop_decodeErr dec d false rest derr hd, hrest]
        | ok msg =>
          cases hi : extractIAm msg with
          | none => simp [collectLoop_noIAm dec d false rest msg hd hi, hrest]
          | some iam => simp [collectLoop_iAm_closed dec d rest msg iam hd hi]
  · intro d msg iam rest hd hi
    exact collectLoop_iAm_closed dec d rest msg iam hd hi

/-- Witness for C1 (amended): on the concrete dropped-receiver trace nothing
is delivered on the channel. -/
theorem discovery_receiver_drop_witness :
    (collectLoop decNone droppedTrace).sent = [] :=
  (discovery_receiver_drop decNone droppedTrace (by decide)).1

/-- Claim C3: the collecting loop waits for each inbound datagram bounded by
an inactivity timeout that defaults to 120 seconds when the caller passes no
duration; the window is re-armed on every received datagram (sliding window:
a whole chain of arrivals each within the window of its predecessor is
received, even past any absolute deadline), a datagram beyond the window of
the last receipt is never received, and when no datagram arrives within the
window the loop exits normally with nothing further sent (the channel then
closes with the task). -/
theorem discovery_inactivity_window :
    whoIsDuration none = 120 ∧
    (∀ d, whoIsDuration (some d) = d) ∧
    (∀ w t arrivals, List.Chain (fun x y => y ≤ x + w) t arrivals →
        slidingReceives w t arrivals = arrivals) ∧
    (∀ w t a rest, t + w < a → slidingReceives w t (a :: rest) = []) ∧
    (∀ dec b rest, collectLoop dec (⟨RecvOutcome.timedOut, b⟩ :: rest) =
        ⟨[], ExitKind.inactivityTimeout, 1⟩) := by
  refine ⟨rfl, fun d => rfl, ?_, ?_, fun dec b rest => rfl⟩
  · intro w t arrivals h
    induction arrivals generalizing t with
    | nil => rfl
    | cons a rest ih =>
      rw [List.chain_cons] at h
      simp [slidingReceives, h.1, ih a h.2]
  · intro w t a rest h
    simp [slidingReceives, Nat.not_le.mpr h]

/-- Witness for C3: the default window is 120, and with window 120 starting
at time 0 the arrivals 100, 200, 300 are all received although 300 lies
beyond the absolute deadline 0 + 120 — the window slides. -/
theorem discovery_inactivity_window_witness :
    whoIsDuration none = 120 ∧
    slidingReceives 120 0 [100, 200, 300] = [100, 200, 300] ∧
    0 + 120 < 300 :=
  ⟨discovery_inactivity_window.1,
   discovery_inactivity_window.2.2.1 120 0 [100, 200, 300]
     (by simp [List.chain_cons]),
   by decide⟩

/-- Claim C6: a datagram that decodes successfully to a non-I-Am frame is
silently discarded (nothing sent) and collection continues; a datagram
decoding to an I-Am delivers a device record assembled from the decoded
device id, vendor id and the sender address, ahead of whatever the rest of
the trace delivers (arrival order); and two I-Am datagrams — in particular
the same device replying twice — yield two records, with no deduplication. -/
theorem discovery_iam_filtering (dec : List Nat → Except DecodeError DataLink)
    (d d2 : Datagram) (msg msg2 : DataLink) (iam iam2 : IAm) (b : Bool)
    (rest : List LoopEvent) :
    (dec d.bytes = Except.ok msg → extractIAm msg = none →
        collectLoop dec (⟨RecvOutcome.datagram d, b⟩ :: rest) =
          ⟨(collectLoop dec rest).sent, (collectLoop dec rest).exit,
           (collectLoop dec rest).consumed + 1⟩) ∧
    (dec d.bytes = Except.ok msg → extractIAm msg = some iam →
        (collectLoop dec (⟨RecvOutcome.datagram d, true⟩ :: rest)).sent =
          Except.ok ⟨iam.device_id.id, iam.vendor_id, d.source⟩ ::
            (collectLoop dec rest).sent) ∧
    (dec d.bytes = Except.ok msg → extractIAm msg = some iam →
      dec d2.bytes = Except.ok msg2 → extractIAm msg2 = some iam2 →
        (collectLoop dec (⟨RecvOutcome.datagram d, true⟩ ::
            ⟨RecvOutcome.datagram d2, true⟩ :: rest)).sent =
          Except.ok ⟨iam.device_id.id, iam.vendor_id, d.source⟩ ::
            Except.ok ⟨iam2.device_id.id, iam2.vendor_id, d2.source⟩ ::
              (collectLoop dec rest).sent) := by
  refine ⟨?_, ?_, ?_⟩
  · intro hd hi
    exact collectLoop_noIAm dec d b rest msg hd hi
  · intro hd hi
    rw [collectLoop_iAm_open dec d rest msg iam hd hi]
  · intro hd hi hd2 hi2
    rw [collectLoop_iAm_open dec d _ msg iam hd hi]
    simp [collectLoop_iAm_open dec d2 rest msg2 iam2 hd2 hi2]

/-- A concrete decode function: payload `[1]` decodes to an I-Am frame for
device 77 of vendor 9, payload `[2]` to a Who-Is frame (not an I-Am), and
anything else fails to decode with code 1. -/
def decSample : List Nat → Except DecodeError DataLink := fun bytes =>
  match bytes with
  | [1] => Except.ok ⟨some ⟨NetworkMessage.apdu (ApplicationPdu.unconfirmedRequest
      (UnconfirmedRequest.iAm ⟨⟨77⟩, 9⟩))⟩⟩
  | [2] => Except.ok ⟨some ⟨NetworkMessage.apdu (ApplicationPdu.unconfirmedRequest
      UnconfirmedRequest.whoIs)⟩⟩
  | _ => Except.error ⟨1⟩

/-- Witness for C6: the same device (id 77, vendor 9, at 10.0.0.7:47808)
replying twice yields exactly two identical records in arrival order, and an
interposed Who-Is datagram is discarded. -/
theorem discovery_iam_filtering_witness :
    (collectLoop decSample
        [⟨RecvOutcome.datagram ⟨[1], ⟨167772167, 47808⟩⟩, true⟩,
         ⟨RecvOutcome.datagram ⟨[1], ⟨167772167, 47808⟩⟩, true⟩]).sent =
      [Except.ok ⟨77, 9, ⟨167772167, 47808⟩⟩,
       Except.ok ⟨77, 9, ⟨167772167, 47808⟩⟩] := by
  have h := (discovery_iam_filtering decSample ⟨[1], ⟨167772167, 47808⟩⟩
      ⟨[1], ⟨167772167, 47808⟩⟩
      ⟨some ⟨NetworkMessage.apdu (ApplicationPdu.unconfirmedRequest
        (UnconfirmedRequest.iAm ⟨⟨77⟩, 9⟩))⟩⟩
      ⟨some ⟨NetworkMessage.apdu (ApplicationPdu.unconfirmedRequest
        (UnconfirmedRequest.iAm ⟨⟨77⟩, 9⟩))⟩⟩
      ⟨⟨77⟩, 9⟩ ⟨⟨77⟩, 9⟩ true []).2.2 rfl rfl rfl rfl
  exact h.trans rfl

/-- Claim C7: a receive error is forwarded to the open receiver as an `Err`
value and collection continues (same exit as without it); a datagram whose
bytes fail to decode is likewise forwarded as an `Err` and collection
continues — one failed or malformed read never terminates discovery. -/
theorem discovery_error_forwarding (dec : List Nat → Except DecodeError DataLink)
    (err : IoError) (derr : DecodeError) (d : Datagram)
    (rest : List LoopEvent) :
    ((collectLoop dec (⟨RecvOutcome.recvErr err, true⟩ :: rest)).sent =
        Except.error (Error.io err) :: (collectLoop dec rest).sent ∧
      (collectLoop dec (⟨RecvOutcome.recvErr err, true⟩ :: rest)).exit =
        (collectLoop dec rest).exit) ∧
    (dec d.bytes = Except.error derr →
      (collectLoop dec (⟨RecvOutcome.datagram d, true⟩ :: rest)).sent =
          Except.error (Error.bacnet (BacnetError.codec derr)) ::
            (collectLoop dec rest).sent ∧
        (collectLoop dec (⟨RecvOutcome.datagram d, true⟩ :: rest)).exit =
          (collectLoop dec rest).exit) := by
  constructor
  · rw [collectLoop_recvErr]
    exact ⟨rfl, rfl⟩
  · intro hd
    rw [collectLoop_decodeErr dec d true rest derr hd]
    exact ⟨rfl, rfl⟩

/-- Witness for C7: a malformed datagram (payload `[9]`) is forwarded as a
codec error on the channel and the loop then still ends in the inactivity
timeout, not in an abort. -/
theorem discovery_error_forwarding_witness :
    (collectLoop decSample [⟨RecvOutcome.datagram ⟨[9], ⟨167772167, 47808⟩⟩, true⟩,
        ⟨RecvOutcome.timedOut, true⟩]).sent =
      [Except.error (Error.bacnet (BacnetError.codec ⟨1⟩))] ∧
    (collectLoop decSample [⟨RecvOutcome.datagram ⟨[9], ⟨167772167, 47808⟩⟩, true⟩,
        ⟨RecvOutcome.timedOut, true⟩]).exit = ExitKind.inactivityTimeout := by
  have h := (discovery_error_forwarding decSample
      ⟨IoErrorKind.other 104, "connection reset"⟩ ⟨1⟩
      ⟨[9], ⟨167772167, 47808⟩⟩ [⟨RecvOutcome.timedOut, true⟩]).2 rfl
  exact ⟨h.1.trans rfl, h.2.trans rfl⟩

end AsyncBacnet
